import Mathlib

/-!
Verification development for the modelfox drift-monitor core and the web
handlers under `src/`.

The monitor business logic lives in the `tangram_app_common::alerts` module,
which is not among the provided source files; only its caller
(`routes/repos/_/models/_/monitors/_/edit/server/post.rs`) is. Definitions
for the missing parts are modelled from the specification and carry a doc
comment saying so. Everything taken from a provided source file is a direct
translation of that file.

Numeric metric values are `f32`/`f64` in the source; they are modelled as
rationals here, which preserves the arithmetic (`+`, `-`, `/` by a nonzero
baseline) and order comparisons exactly on all inputs the claims mention.
-/

namespace Modelfox

/-- Cadence of a monitor, one of Hourly, Daily, Weekly, Monthly
(`AlertCadence` in `tangram_app_common::alerts`). -/
inductive AlertCadence
| hourly
| daily
| weekly
| monthly
deriving DecidableEq, Repr

/-- Metrics a monitor may watch (`AlertMetric`): regression RMSE/MSE,
binary classification accuracy/AUC-ROC/precision/recall/F1, multiclass
accuracy. -/
inductive AlertMetric
| accuracy
| aucRoc
| mse
| rmse
| precisionMetric
| recallMetric
| f1
deriving DecidableEq, Repr

/-- Threshold mode (`MonitorThresholdMode`): `Absolute` (raw difference)
or `Percentage` (relative variance from baseline). -/
inductive MonitorThresholdMode
| absolute
| percentage
deriving DecidableEq, Repr

/-- A notification channel (`AlertMethod`): stdout, an email address, or a
webhook URL. -/
inductive AlertMethod
| stdout
| email (address : String)
| webhook (url : String)
deriving DecidableEq, Repr

/-- A monitor threshold (`MonitorThreshold`): metric, mode and the optional
lower/upper variance bounds. -/
structure MonitorThreshold where
  metric : AlertMetric
  mode : MonitorThresholdMode
  variance_lower : Option ℚ
  variance_upper : Option ℚ
deriving DecidableEq, Repr

/-- A monitor record (`Monitor` in `tangram_app_common::alerts`, also the
persisted layout of spec §6). -/
structure Monitor where
  cadence : AlertCadence
  id : ℕ
  methods : List AlertMethod
  model_id : ℕ
  threshold : MonitorThreshold
  title : String
deriving DecidableEq, Repr

/-- Direction of a threshold breach. -/
inductive BreachDirection
| low
| high
deriving DecidableEq, Repr

/-- Outcome of a threshold evaluation (spec §4.3): `NoBreach`,
`Breach{direction, variance}`, or `Indeterminate`. -/
inductive ThresholdOutcome
| noBreach
| breach (direction : BreachDirection) (variance : ℚ)
| indeterminate
deriving DecidableEq, Repr

/-- Modelled from the spec: the Threshold Evaluator of §4.3, whose source
(in `tangram_app_common::alerts`) is not among the provided files.
`variance` is the relative variance in Percentage mode and the raw
difference in Absolute mode; a set lower bound with `variance` below it is
a low breach, a set upper bound with `variance` above it a high breach;
Percentage mode with a zero baseline is surfaced as `indeterminate`,
never as an infinite variance. -/
def evaluateThreshold (current_value baseline_value : ℚ)
    (t : MonitorThreshold) : ThresholdOutcome :=
  if t.mode = MonitorThresholdMode.percentage ∧ baseline_value = 0 then
    ThresholdOutcome.indeterminate
  else
    let variance :=
      if t.mode = MonitorThresholdMode.percentage then
        (current_value - baseline_value) / baseline_value
      else
        current_value - baseline_value
    let breach_low : Bool :=
      match t.variance_lower with
      | some lo => decide (variance < lo)
      | none => false
    let breach_high : Bool :=
      match t.variance_upper with
      | some hi => decide (hi < variance)
      | none => false
    if breach_low then ThresholdOutcome.breach BreachDirection.low variance
    else if breach_high then ThresholdOutcome.breach BreachDirection.high variance
    else ThresholdOutcome.noBreach

/-- Modelled from the spec: whether an evaluation outcome fires an alert
(spec §7: `Indeterminate` is logged, no alert fired; only a breach is
dispatched). -/
def firesAlert : ThresholdOutcome → Bool
| ThresholdOutcome.breach _ _ => true
| _ => false

end Modelfox

namespace Modelfox

/-- The claim C1 is stated over thresholds with at least one bound set. -/
def MonitorThreshold.hasBound (t : MonitorThreshold) : Prop :=
  t.variance_lower.isSome ∨ t.variance_upper.isSome

/-- The variance the evaluator computes, as a standalone function. -/
def thresholdVariance (current_value baseline_value : ℚ)
    (mode : MonitorThresholdMode) : ℚ :=
  if mode = MonitorThresholdMode.percentage then
    (current_value - baseline_value) / baseline_value
  else
    current_value - baseline_value

theorem evaluateThreshold_eq (current baseline : ℚ) (t : MonitorThreshold)
    (hnz : t.mode = MonitorThresholdMode.percentage → baseline ≠ 0) :
    evaluateThreshold current baseline t =
      (let variance := thresholdVariance current baseline t.mode
       if (∃ lo, t.variance_lower = some lo ∧ variance < lo) then
         ThresholdOutcome.breach BreachDirection.low variance
       else if (∃ hi, t.variance_upper = some hi ∧ hi < variance) then
         ThresholdOutcome.breach BreachDirection.high variance
       else ThresholdOutcome.noBreach) := by
  unfold evaluateThreshold thresholdVariance
  have hmode : ¬(t.mode = MonitorThresholdMode.percentage ∧ baseline = 0) := by
    rintro ⟨hm, hz⟩
    exact hnz hm hz
  rw [if_neg hmode]
  cases hlo : t.variance_lower with
  | none =>
    simp only [hlo]
    cases hhi : t.variance_upper with
    | none => simp
    | some hi => simp
  | some lo =>
    simp only [hlo]
    cases hhi : t.variance_upper with
    | none => simp
    | some hi => simp

/-- C1: for every `current_value`, `baseline_value` and threshold with at
least one bound set (and a nonzero baseline in Percentage mode), the
Threshold Evaluator computes `variance = (current - baseline) / baseline`
in Percentage mode and `variance = current - baseline` in Absolute mode,
returns `Breach{Low, variance}` when `variance_lower` is set and
`variance < variance_lower`, `Breach{High, variance}` when
`variance_upper` is set and `variance > variance_upper` (the low direction
taking precedence in the degenerate case where both bounds breach at once,
which requires the upper bound to lie below the lower), and `NoBreach`
when neither bound is breached; in particular Absolute mode with baseline
0.80, lower -0.05, upper unset yields `Breach{Low, -0.10}` at current 0.70
and `NoBreach` at current 0.77. -/
theorem C1_threshold_evaluator (current baseline : ℚ) (t : MonitorThreshold)
    (hnz : t.mode = MonitorThresholdMode.percentage → baseline ≠ 0)
    ( _hb : t.hasBound) :
    (∀ lo, t.variance_lower = some lo →
      thresholdVariance current baseline t.mode < lo →
      evaluateThreshold current baseline t =
        ThresholdOutcome.breach BreachDirection.low
          (thresholdVariance current baseline t.mode)) ∧
    (∀ hi, t.variance_upper = some hi →
      hi < thresholdVariance current baseline t.mode →
      (∀ lo, t.variance_lower = some lo →
        ¬ thresholdVariance current baseline t.mode < lo) →
      evaluateThreshold current baseline t =
        ThresholdOutcome.breach BreachDirection.high
          (thresholdVariance current baseline t.mode)) ∧
    ((∀ lo, t.variance_lower = some lo →
        ¬ thresholdVariance current baseline t.mode < lo) →
     (∀ hi, t.variance_upper = some hi →
        ¬ hi < thresholdVariance current baseline t.mode) →
      evaluateThreshold current baseline t = ThresholdOutcome.noBreach) ∧
    evaluateThreshold (7/10) (8/10)
      ⟨AlertMetric.accuracy, MonitorThresholdMode.absolute,
        some (-(5/100)), none⟩ =
      ThresholdOutcome.breach BreachDirection.low (-(1/10)) ∧
    evaluateThreshold (77/100) (8/10)
      ⟨AlertMetric.accuracy, MonitorThresholdMode.absolute,
        some (-(5/100)), none⟩ = ThresholdOutcome.noBreach := by
  rw [evaluateThreshold_eq current baseline t hnz]
  refine ⟨?_, ?_, ?_,
    by unfold evaluateThreshold; simp; norm_num,
    by unfold evaluateThreshold; simp; norm_num⟩
  · intro lo hlo hlt
    rw [if_pos ⟨lo, hlo, hlt⟩]
  · intro hi hhi hgt hnlo
    have hno : ¬ ∃ lo, t.variance_lower = some lo ∧
        thresholdVariance current baseline t.mode < lo := by
      rintro ⟨lo, hlo, hlt⟩
      exact hnlo lo hlo hlt
    rw [if_neg hno, if_pos ⟨hi, hhi, hgt⟩]
  · intro hnlo hnhi
    have hno : ¬ ∃ lo, t.variance_lower = some lo ∧
        thresholdVariance current baseline t.mode < lo := by
      rintro ⟨lo, hlo, hlt⟩
      exact hnlo lo hlo hlt
    have hno2 : ¬ ∃ hi, t.variance_upper = some hi ∧
        hi < thresholdVariance current baseline t.mode := by
      rintro ⟨hi, hhi, hgt⟩
      exact hnhi hi hhi hgt
    rw [if_neg hno, if_neg hno2]

/-- Witness for C1 at the spec's Absolute-mode example. -/
theorem C1_threshold_evaluator_witness :
    evaluateThreshold (7/10) (8/10)
      ⟨AlertMetric.accuracy, MonitorThresholdMode.absolute,
        some (-(5/100)), none⟩ =
      ThresholdOutcome.breach BreachDirection.low (-(1/10)) := by
  have h := C1_threshold_evaluator (7/10) (8/10)
    ⟨AlertMetric.accuracy, MonitorThresholdMode.absolute,
      some (-(5/100)), none⟩ (by intro h; cases h) (Or.inl (by decide))
  exact h.2.2.2.1

/-- C6: in Percentage mode with baseline 0, the evaluator returns
`Indeterminate` for every current value and every bound configuration —
never an infinite variance, never a breach, never a no-breach — and an
indeterminate outcome fires no alert. -/
theorem C6_percentage_zero_baseline (current : ℚ) (t : MonitorThreshold)
    (hm : t.mode = MonitorThresholdMode.percentage) :
    evaluateThreshold current 0 t = ThresholdOutcome.indeterminate ∧
    firesAlert (evaluateThreshold current 0 t) = false := by
  have h : evaluateThreshold current 0 t = ThresholdOutcome.indeterminate := by
    unfold evaluateThreshold
    rw [if_pos ⟨hm, rfl⟩]
  exact ⟨h, by rw [h]; rfl⟩

/-- Witness for C6 at current 42, lower -1, upper 1. -/
theorem C6_percentage_zero_baseline_witness :
    evaluateThreshold 42 0
      ⟨AlertMetric.accuracy, MonitorThresholdMode.percentage,
        some (-1), some 1⟩ = ThresholdOutcome.indeterminate := by
  exact (C6_percentage_zero_baseline 42
    ⟨AlertMetric.accuracy, MonitorThresholdMode.percentage,
      some (-1), some 1⟩ rfl).1

/-! ## The monitor edit handler

Translation of the `Action::UpdateMonitor` arm of `post` in
`src/crates/app/routes/repos/_/models/_/monitors/_/edit/server/post.rs`
(lines 106-201). The submission is modelled after the enum parsing steps
(`AlertMetric::from_str` etc.), with the optional numeric threshold
strings modelled as `Option ℚ` (an empty string is an absent bound).
The store helpers it calls (`validate_threshold_bounds`,
`check_for_duplicate_monitor`, `update_monitor`, `default_title`) live in
`tangram_app_common::alerts`, which is not among the provided files, and
are modelled from the spec. -/

/-- The fields of an `update_alert` form submission
(`UpdateMonitorAction` in post.rs), after enum parsing. -/
structure UpdateMonitorAction where
  cadence : AlertCadence
  email : String
  metric : AlertMetric
  mode : MonitorThresholdMode
  threshold_lower : Option ℚ
  threshold_upper : Option ℚ
  title : String
  webhook : String

/-- The methods list the handler builds (post.rs lines 119-125):
`Stdout` always, then `Email(email)` when the email string is non-empty,
then `Webhook(webhook)` when the webhook string is non-empty. -/
def build_methods (email webhook : String) : List AlertMethod :=
  [AlertMethod.stdout] ++
    (if email.isEmpty then [] else [AlertMethod.email email]) ++
    (if webhook.isEmpty then [] else [AlertMethod.webhook webhook])

/-- Modelled from the spec: `validate_threshold_bounds` of
`tangram_app_common::alerts` is not among the provided files; per spec §3
and §6 it rejects (yields `none` for) a threshold with both bounds absent
and otherwise passes the pair of optional bounds through. -/
def validate_threshold_bounds (threshold_lower threshold_upper : Option ℚ) :
    Option (Option ℚ × Option ℚ) :=
  if threshold_lower.isNone ∧ threshold_upper.isNone then none
  else some (threshold_lower, threshold_upper)

/-- Modelled from the spec: the cadence's display name, used by the
default title of §3 ("Daily Accuracy Monitor"). -/
def AlertCadence.displayName : AlertCadence → String
| AlertCadence.hourly => "Hourly"
| AlertCadence.daily => "Daily"
| AlertCadence.weekly => "Weekly"
| AlertCadence.monthly => "Monthly"

/-- Modelled from the spec: the metric's display name, used by the
default title of §3. -/
def AlertMetric.displayName : AlertMetric → String
| AlertMetric.accuracy => "Accuracy"
| AlertMetric.aucRoc => "AUC ROC"
| AlertMetric.mse => "Mean Squared Error"
| AlertMetric.rmse => "Root Mean Squared Error"
| AlertMetric.precisionMetric => "Precision"
| AlertMetric.recallMetric => "Recall"
| AlertMetric.f1 => "F1 Score"

/-- Modelled from the spec: `Monitor::default_title`, derived
deterministically from metric and cadence (§3: e.g. "Daily Accuracy
Monitor"). -/
def Monitor.default_title (m : Monitor) : String :=
  m.cadence.displayName ++ " " ++ m.threshold.metric.displayName ++ " Monitor"

/-- Modelled from the spec: `check_for_duplicate_monitor` of
`tangram_app_common::alerts`; per spec §3, a duplicate is a stored monitor
for the same model agreeing with the candidate on `metric`, `cadence`,
`mode`, `variance_lower` and `variance_upper`, under a different id
(`title` and `methods` are not part of the identity). -/
def check_for_duplicate_monitor (store : List Monitor) (monitor : Monitor)
    (model_id : ℕ) : Bool :=
  store.any fun m =>
    decide (m.model_id = model_id ∧
      m.cadence = monitor.cadence ∧
      m.threshold.metric = monitor.threshold.metric ∧
      m.threshold.mode = monitor.threshold.mode ∧
      m.threshold.variance_lower = monitor.threshold.variance_lower ∧
      m.threshold.variance_upper = monitor.threshold.variance_upper ∧
      m.id ≠ monitor.id)

/-- Modelled from the spec: `update_monitor` of
`tangram_app_common::alerts`; per spec §3 and §4.1 an update is a full
replace of the configuration of the stored monitor `monitor_id`, keeping
its id (§3: the id is generated on creation and immutable). It fails with
a store error when no monitor with that id exists. -/
def update_monitor (store : List Monitor) (monitor : Monitor)
    (monitor_id : ℕ) : Except Unit (List Monitor) :=
  if store.any fun m => decide (m.id = monitor_id) then
    Except.ok (store.map fun m =>
      if m.id = monitor_id then { monitor with id := monitor_id } else m)
  else Except.error ()

/-- The candidate monitor the handler constructs (post.rs lines 144-159):
configuration from the parsed submission, a freshly generated id, and —
when the submitted title is empty — the default title derived from metric
and cadence. -/
def submittedMonitor (model_id fresh_id : ℕ) (methods : List AlertMethod)
    (a : UpdateMonitorAction) (bounds : Option ℚ × Option ℚ) : Monitor :=
  let monitor : Monitor :=
    { cadence := a.cadence
      id := fresh_id
      methods := methods
      model_id := model_id
      threshold :=
        { metric := a.metric
          mode := a.mode
          variance_lower := bounds.1
          variance_upper := bounds.2 }
      title := a.title }
  if monitor.title.isEmpty then
    { monitor with title := monitor.default_title }
  else monitor

/-- The handler's possible responses for the `update_alert` action:
a 400 page carrying one of the three error messages, or a 303 redirect
to the monitor list. -/
inductive HandlerResponse
| badRequest (error : String)
| seeOther (location : String)
deriving DecidableEq, Repr

/-- The `Action::UpdateMonitor` arm of `post` (post.rs lines 106-201):
build the methods list, validate the threshold bounds (400 "Must provide
at least one threshold bound." when both are absent), construct the
candidate monitor with a freshly generated id and the default title when
the submitted title is empty, reject duplicates (400 "Identical monitor
already exists."), attempt the store update (400 "There was an error
editing your monitor." on store failure), and otherwise commit and
redirect. The returned list is the store after the transaction; every
error path leaves it unchanged. `fresh_id` stands for `Id::generate()`. -/
def handleUpdateMonitor (store : List Monitor) (repo_id : String)
    (model_id : ℕ) (monitor_id : ℕ) (fresh_id : ℕ)
    (a : UpdateMonitorAction) : HandlerResponse × List Monitor :=
  let methods := build_methods a.email a.webhook
  match validate_threshold_bounds a.threshold_lower a.threshold_upper with
  | none =>
    (HandlerResponse.badRequest "Must provide at least one threshold bound.",
      store)
  | some bounds =>
    let monitor := submittedMonitor model_id fresh_id methods a bounds
    if check_for_duplicate_monitor store monitor model_id then
      (HandlerResponse.badRequest "Identical monitor already exists.", store)
    else
      match update_monitor store monitor monitor_id with
      | Except.error _ =>
        (HandlerResponse.badRequest "There was an error editing your monitor.",
          store)
      | Except.ok store' =>
        (HandlerResponse.seeOther
          ("/repos/" ++ repo_id ++ "/models/" ++ toString model_id ++
            "/monitors/"),
          store')

theorem submittedMonitor_id (model_id fresh_id : ℕ) (methods : List AlertMethod)
    (a : UpdateMonitorAction) (bounds : Option ℚ × Option ℚ) :
    (submittedMonitor model_id fresh_id methods a bounds).id = fresh_id := by
  unfold submittedMonitor
  dsimp only
  split <;> rfl

theorem submittedMonitor_cadence (model_id fresh_id : ℕ)
    (methods : List AlertMethod) (a : UpdateMonitorAction)
    (bounds : Option ℚ × Option ℚ) :
    (submittedMonitor model_id fresh_id methods a bounds).cadence = a.cadence := by
  unfold submittedMonitor
  dsimp only
  split <;> rfl

theorem submittedMonitor_threshold (model_id fresh_id : ℕ)
    (methods : List AlertMethod) (a : UpdateMonitorAction)
    (bounds : Option ℚ × Option ℚ) :
    (submittedMonitor model_id fresh_id methods a bounds).threshold =
      ⟨a.metric, a.mode, bounds.1, bounds.2⟩ := by
  unfold submittedMonitor
  dsimp only
  split <;> rfl

theorem submittedMonitor_methods (model_id fresh_id : ℕ)
    (methods : List AlertMethod) (a : UpdateMonitorAction)
    (bounds : Option ℚ × Option ℚ) :
    (submittedMonitor model_id fresh_id methods a bounds).methods = methods := by
  unfold submittedMonitor
  dsimp only
  split <;> rfl

theorem submittedMonitor_model_id (model_id fresh_id : ℕ)
    (methods : List AlertMethod) (a : UpdateMonitorAction)
    (bounds : Option ℚ × Option ℚ) :
    (submittedMonitor model_id fresh_id methods a bounds).model_id = model_id := by
  unfold submittedMonitor
  dsimp only
  split <;> rfl

theorem validate_some_of_bound (lo hi : Option ℚ)
    (hb : lo.isSome ∨ hi.isSome) :
    validate_threshold_bounds lo hi = some (lo, hi) := by
  unfold validate_threshold_bounds
  rw [if_neg]
  rintro ⟨h1, h2⟩
  cases hb with
  | inl h => rw [Option.isNone_iff_eq_none] at h1; rw [h1] at h; cases h
  | inr h => rw [Option.isNone_iff_eq_none] at h2; rw [h2] at h; cases h

theorem validate_eq_pair (lo hi : Option ℚ) (b : Option ℚ × Option ℚ)
    (h : validate_threshold_bounds lo hi = some b) :
    b = (lo, hi) ∧ (lo.isSome ∨ hi.isSome) := by
  unfold validate_threshold_bounds at h
  by_cases hc : lo.isNone ∧ hi.isNone
  · rw [if_pos hc] at h
    cases h
  · rw [if_neg hc] at h
    refine ⟨(Option.some_inj.mp h).symm, ?_⟩
    by_cases h1 : lo.isSome
    · exact Or.inl h1
    · refine Or.inr ?_
      by_cases h2 : hi.isSome
      · exact h2
      · exact absurd ⟨Option.not_isSome_iff_eq_none.mp h1 ▸ rfl,
          Option.not_isSome_iff_eq_none.mp h2 ▸ rfl⟩ hc

theorem update_monitor_ok (store : List Monitor) (monitor : Monitor)
    (monitor_id : ℕ) (store' : List Monitor)
    (h : update_monitor store monitor monitor_id = Except.ok store') :
    store' = store.map fun m =>
      if m.id = monitor_id then { monitor with id := monitor_id } else m := by
  unfold update_monitor at h
  by_cases hc : store.any fun m => decide (m.id = monitor_id)
  · rw [if_pos hc] at h
    exact (Except.ok.inj h).symm
  · rw [if_neg hc] at h
    cases h

theorem handleUpdateMonitor_ok (store : List Monitor) (repo_id : String)
    (model_id monitor_id fresh_id : ℕ) (a : UpdateMonitorAction)
    (loc : String) (store' : List Monitor)
    (h : handleUpdateMonitor store repo_id model_id monitor_id fresh_id a =
      (HandlerResponse.seeOther loc, store')) :
    (a.threshold_lower.isSome ∨ a.threshold_upper.isSome) ∧
    store' = store.map fun m =>
      if m.id = monitor_id then
        { submittedMonitor model_id fresh_id
            (build_methods a.email a.webhook) a
            (a.threshold_lower, a.threshold_upper) with id := monitor_id }
      else m := by
  unfold handleUpdateMonitor at h
  cases hv : validate_threshold_bounds a.threshold_lower a.threshold_upper with
  | none =>
    rw [hv] at h
    cases h
  | some bounds =>
    rw [hv] at h
    obtain ⟨hb, hsome⟩ := validate_eq_pair _ _ _ hv
    subst hb
    simp only at h
    by_cases hdup : check_for_duplicate_monitor store
        (submittedMonitor model_id fresh_id (build_methods a.email a.webhook) a
          (a.threshold_lower, a.threshold_upper)) model_id = true
    · rw [if_pos hdup] at h
      cases h
    · rw [if_neg hdup] at h
      cases hu : update_monitor store
          (submittedMonitor model_id fresh_id (build_methods a.email a.webhook) a
            (a.threshold_lower, a.threshold_upper)) monitor_id with
      | error e =>
        rw [hu] at h
        cases h
      | ok s =>
        rw [hu] at h
        have hs : s = store' := congrArg Prod.snd h
        subst hs
        exact ⟨hsome, update_monitor_ok _ _ _ _ hu⟩

/-- C7: for every submission, the constructed methods list has `Stdout`
first, contains `Email(email)` iff the submitted email string is
non-empty, contains `Webhook(webhook)` iff the submitted webhook string
is non-empty, and hence is non-empty. -/
theorem C7_methods_list (email webhook : String) :
    (build_methods email webhook).head? = some AlertMethod.stdout ∧
    (AlertMethod.email email ∈ build_methods email webhook ↔
      ¬ email.isEmpty) ∧
    (AlertMethod.webhook webhook ∈ build_methods email webhook ↔
      ¬ webhook.isEmpty) ∧
    build_methods email webhook ≠ [] := by
  unfold build_methods
  by_cases he : email.isEmpty <;> by_cases hw : webhook.isEmpty <;>
    simp [he, hw]

/-- C4: a submission with both threshold bounds absent is answered with
HTTP 400 and "Must provide at least one threshold bound." and leaves the
store unchanged (the duplicate check and store write are never reached:
the handler returns before them, for every store contents); and on every
successful update the monitor stored under `monitor_id` has at least one
of `variance_lower`/`variance_upper` present. -/
theorem C4_threshold_bounds_validation (store : List Monitor)
    (repo_id : String) (model_id monitor_id fresh_id : ℕ)
    (a : UpdateMonitorAction) :
    (a.threshold_lower = none → a.threshold_upper = none →
      handleUpdateMonitor store repo_id model_id monitor_id fresh_id a =
        (HandlerResponse.badRequest "Must provide at least one threshold bound.",
          store)) ∧
    (∀ loc store',
      handleUpdateMonitor store repo_id model_id monitor_id fresh_id a =
        (HandlerResponse.seeOther loc, store') →
      ∀ m ∈ store', m.id = monitor_id →
        m.threshold.variance_lower.isSome ∨ m.threshold.variance_upper.isSome) := by
  constructor
  · intro hlo hhi
    unfold handleUpdateMonitor validate_threshold_bounds
    rw [hlo, hhi]
    rfl
  · intro loc store' h m hm hid
    obtain ⟨hsome, hstore⟩ :=
      handleUpdateMonitor_ok store repo_id model_id monitor_id fresh_id a
        loc store' h
    subst hstore
    rw [List.mem_map] at hm
    obtain ⟨m1, hm1, heq⟩ := hm
    by_cases h1 : m1.id = monitor_id
    · rw [if_pos h1] at heq
      rw [← heq]
      have ht := submittedMonitor_threshold model_id fresh_id
        (build_methods a.email a.webhook) a
        (a.threshold_lower, a.threshold_upper)
      show ({ submittedMonitor model_id fresh_id
          (build_methods a.email a.webhook) a
          (a.threshold_lower, a.threshold_upper) with
            id := monitor_id }).threshold.variance_lower.isSome ∨
        ({ submittedMonitor model_id fresh_id
          (build_methods a.email a.webhook) a
          (a.threshold_lower, a.threshold_upper) with
            id := monitor_id }).threshold.variance_upper.isSome
      simp only [ht]
      exact hsome
    · rw [if_neg h1] at heq
      rw [← heq] at hid
      exact absurd hid h1

/-- Witness for C4 on an empty store, both bounds absent. -/
theorem C4_threshold_bounds_validation_witness :
    handleUpdateMonitor [] "r" 5 1 2
      { cadence := AlertCadence.hourly, email := "",
        metric := AlertMetric.accuracy,
        mode := MonitorThresholdMode.absolute, threshold_lower := none,
        threshold_upper := none, title := "", webhook := "" } =
      (HandlerResponse.badRequest "Must provide at least one threshold bound.",
        []) :=
  (C4_threshold_bounds_validation [] "r" 5 1 2
    { cadence := AlertCadence.hourly, email := "",
      metric := AlertMetric.accuracy,
      mode := MonitorThresholdMode.absolute, threshold_lower := none,
      threshold_upper := none, title := "", webhook := "" }).1 rfl rfl

theorem map_id_replace (store : List Monitor) (monitor : Monitor)
    (monitor_id : ℕ) :
    (store.map fun m =>
      if m.id = monitor_id then { monitor with id := monitor_id } else m).map
        (fun m => m.id) =
      store.map (fun m => m.id) := by
  induction store with
  | nil => rfl
  | cons hd tl ih =>
    simp only [List.map_cons]
    by_cases hc : hd.id = monitor_id
    · rw [if_pos hc, ih, hc]
    · rw [if_neg hc, ih]

/-- C5: the monitor id is generated only on create and is immutable under
update: every successful `update_alert` submission leaves the multiset of
stored ids unchanged, and the record stored under `monitor_id` afterwards
still has id `monitor_id` while carrying exactly the submitted
configuration (cadence, methods, model, metric, mode and bounds). -/
theorem C5_update_preserves_id (store : List Monitor) (repo_id : String)
    (model_id monitor_id fresh_id : ℕ) (a : UpdateMonitorAction)
    (loc : String) (store' : List Monitor)
    (h : handleUpdateMonitor store repo_id model_id monitor_id fresh_id a =
      (HandlerResponse.seeOther loc, store')) :
    store'.map (fun m => m.id) = store.map (fun m => m.id) ∧
    ∀ m ∈ store', m.id = monitor_id →
      m.cadence = a.cadence ∧
      m.methods = build_methods a.email a.webhook ∧
      m.model_id = model_id ∧
      m.threshold =
        ⟨a.metric, a.mode, a.threshold_lower, a.threshold_upper⟩ := by
  obtain ⟨hsome, hstore⟩ :=
    handleUpdateMonitor_ok store repo_id model_id monitor_id fresh_id a
      loc store' h
  constructor
  · rw [hstore]
    exact map_id_replace store _ monitor_id
  · intro m hm hid
    subst hstore
    rw [List.mem_map] at hm
    obtain ⟨m1, _hm1, heq⟩ := hm
    by_cases h1 : m1.id = monitor_id
    · rw [if_pos h1] at heq
      subst heq
      refine ⟨?_, ?_, ?_, ?_⟩
      · exact submittedMonitor_cadence model_id fresh_id
          (build_methods a.email a.webhook) a
          (a.threshold_lower, a.threshold_upper)
      · exact submittedMonitor_methods model_id fresh_id
          (build_methods a.email a.webhook) a
          (a.threshold_lower, a.threshold_upper)
      · exact submittedMonitor_model_id model_id fresh_id
          (build_methods a.email a.webhook) a
          (a.threshold_lower, a.threshold_upper)
      · exact submittedMonitor_threshold model_id fresh_id
          (build_methods a.email a.webhook) a
          (a.threshold_lower, a.threshold_upper)
    · rw [if_neg h1] at heq
      subst heq
      exact absurd hid h1

/-- Witness for C5: a concrete successful update of monitor 1 keeps id 1. -/
theorem C5_update_preserves_id_witness :
    [({ cadence := AlertCadence.daily, id := 1,
        methods := [AlertMethod.stdout], model_id := 5,
        threshold := ⟨AlertMetric.accuracy, MonitorThresholdMode.absolute,
          some (-2), none⟩, title := "u" } : Monitor)].map (fun m => m.id) =
      [({ cadence := AlertCadence.hourly, id := 1,
          methods := [AlertMethod.stdout], model_id := 5,
          threshold := ⟨AlertMetric.accuracy, MonitorThresholdMode.absolute,
            some (-1), none⟩, title := "t" } : Monitor)].map (fun m => m.id) :=
  (C5_update_preserves_id
    [{ cadence := AlertCadence.hourly, id := 1,
       methods := [AlertMethod.stdout], model_id := 5,
       threshold := ⟨AlertMetric.accuracy, MonitorThresholdMode.absolute,
         some (-1), none⟩, title := "t" }] "r" 5 1 2
    { cadence := AlertCadence.daily, email := "",
      metric := AlertMetric.accuracy,
      mode := MonitorThresholdMode.absolute, threshold_lower := some (-2),
      threshold_upper := none, title := "u", webhook := "" }
    "/repos/r/models/5/monitors/"
    [{ cadence := AlertCadence.daily, id := 1,
       methods := [AlertMethod.stdout], model_id := 5,
       threshold := ⟨AlertMetric.accuracy, MonitorThresholdMode.absolute,
         some (-2), none⟩, title := "u" }] (by decide)).1

/-- C3: once a monitor with a given `model_id`, `metric`, `cadence`,
`mode`, `variance_lower` and `variance_upper` is stored (with at least one
bound, as validation guarantees for stored monitors, and an id distinct
from the freshly generated one), every submission whose configuration
agrees on exactly those six fields — whatever its title, email and
webhook — is rejected with HTTP 400 and "Identical monitor already
exists.", leaving the stored monitors unchanged. -/
theorem C3_duplicate_rejected (store : List Monitor) (repo_id : String)
    (model_id monitor_id fresh_id : ℕ) (a : UpdateMonitorAction)
    (m0 : Monitor) (hm0 : m0 ∈ store) (hmodel : m0.model_id = model_id)
    (hcad : m0.cadence = a.cadence)
    (hmet : m0.threshold.metric = a.metric)
    (hmode : m0.threshold.mode = a.mode)
    (hlo : m0.threshold.variance_lower = a.threshold_lower)
    (hup : m0.threshold.variance_upper = a.threshold_upper)
    (hbound : a.threshold_lower.isSome ∨ a.threshold_upper.isSome)
    (hfresh : m0.id ≠ fresh_id) :
    handleUpdateMonitor store repo_id model_id monitor_id fresh_id a =
      (HandlerResponse.badRequest "Identical monitor already exists.",
        store) := by
  have hv := validate_some_of_bound a.threshold_lower a.threshold_upper hbound
  have hdup : check_for_duplicate_monitor store
      (submittedMonitor model_id fresh_id (build_methods a.email a.webhook) a
        (a.threshold_lower, a.threshold_upper)) model_id = true := by
    unfold check_for_duplicate_monitor
    rw [List.any_eq_true]
    refine ⟨m0, hm0, ?_⟩
    rw [decide_eq_true_eq]
    rw [submittedMonitor_cadence, submittedMonitor_threshold,
      submittedMonitor_id]
    exact ⟨hmodel, hcad, hmet, hmode, hlo, hup, hfresh⟩
  unfold handleUpdateMonitor
  rw [hv]
  simp only [hdup, if_true]

/-- Witness for C3: resubmitting the stored configuration of monitor 1
under a different title is rejected. -/
theorem C3_duplicate_rejected_witness :
    handleUpdateMonitor
      [{ cadence := AlertCadence.hourly, id := 1,
         methods := [AlertMethod.stdout], model_id := 5,
         threshold := ⟨AlertMetric.accuracy, MonitorThresholdMode.absolute,
           some (-1), none⟩, title := "t" }] "r" 5 1 2
      { cadence := AlertCadence.hourly, email := "",
        metric := AlertMetric.accuracy,
        mode := MonitorThresholdMode.absolute, threshold_lower := some (-1),
        threshold_upper := none, title := "other", webhook := "" } =
      (HandlerResponse.badRequest "Identical monitor already exists.",
        [{ cadence := AlertCadence.hourly, id := 1,
           methods := [AlertMethod.stdout], model_id := 5,
           threshold := ⟨AlertMetric.accuracy, MonitorThresholdMode.absolute,
             some (-1), none⟩, title := "t" }]) :=
  C3_duplicate_rejected
    [{ cadence := AlertCadence.hourly, id := 1,
       methods := [AlertMethod.stdout], model_id := 5,
       threshold := ⟨AlertMetric.accuracy, MonitorThresholdMode.absolute,
         some (-1), none⟩, title := "t" }] "r" 5 1 2
    { cadence := AlertCadence.hourly, email := "",
      metric := AlertMetric.accuracy,
      mode := MonitorThresholdMode.absolute, threshold_lower := some (-1),
      threshold_upper := none, title := "other", webhook := "" }
    { cadence := AlertCadence.hourly, id := 1,
      methods := [AlertMethod.stdout], model_id := 5,
      threshold := ⟨AlertMetric.accuracy, MonitorThresholdMode.absolute,
        some (-1), none⟩, title := "t" }
    (List.mem_singleton.mpr rfl) rfl rfl rfl rfl rfl rfl (Or.inl rfl)
    (by decide)

/-! ## The Cadence Scheduler

Modelled from the spec: the Cadence Scheduler of §4.4 lives in the part of
the repository that is not among the provided files. Timestamps are
natural numbers (minutes); the cadence duration `d` is a parameter, 60 for
Hourly (Daily and Weekly are 1440 and 10080; a calendar-month step varies
in length, and every positive step is covered by the theorems below). -/

/-- Modelled from the spec: one scheduler tick for one monitor (§4.4).
`last` is the monitor's `last_evaluated_window_end`; `hasData ws we` is
whether the Metric Computer finds usable predictions in `[ws, we)`.
Boundaries advance from `last` in steps of `d`; if none has been crossed
the tick skips; otherwise only the most recently completed window
`[b - d, b)` is considered: with data it is evaluated and the pointer
advances to `b`, and on "no data" the tick skips without advancing, so
the window can be retried on a later tick. Returns the new pointer and
the evaluated window, if any. -/
def schedulerTick (d : ℕ) (hasData : ℕ → ℕ → Bool) (now last : ℕ) :
    ℕ × Option (ℕ × ℕ) :=
  if last + d ≤ now then
    let b := last + d * ((now - last) / d)
    if hasData (b - d) b then (b, some (b - d, b)) else (last, none)
  else (last, none)

/-- A sequence of scheduler ticks for one monitor: each tick is a pair of
the wall-clock time and the data availability at that time. Returns the
final pointer and the windows evaluated along the way, in order. -/
def schedulerRun (d : ℕ) (ticks : List (ℕ × (ℕ → ℕ → Bool)))
    (last : ℕ) : ℕ × List (ℕ × ℕ) :=
  match ticks with
  | [] => (last, [])
  | (now, h) :: rest =>
    let s := schedulerTick d h now last
    let r := schedulerRun d rest s.1
    (r.1, s.2.toList ++ r.2)

theorem schedulerTick_cases (d : ℕ) (hd : 0 < d) (hasData : ℕ → ℕ → Bool)
    (now last : ℕ) :
    schedulerTick d hasData now last = (last, none) ∨
    ∃ b, last < b ∧ hasData (b - d) b = true ∧
      schedulerTick d hasData now last = (b, some (b - d, b)) := by
  unfold schedulerTick
  dsimp only
  by_cases hb : last + d ≤ now
  · rw [if_pos hb]
    by_cases hdata : hasData (last + d * ((now - last) / d) - d)
        (last + d * ((now - last) / d)) = true
    · refine Or.inr ⟨last + d * ((now - last) / d), ?_, ?_, ?_⟩
      · have h1 : 1 ≤ (now - last) / d :=
          (Nat.one_le_div_iff hd).mpr (Nat.le_sub_of_add_le
            (Nat.add_comm last d ▸ hb))
        calc last < last + d := Nat.lt_add_of_pos_right hd
        _ = last + d * 1 := by rw [Nat.mul_one]
        _ ≤ last + d * ((now - last) / d) :=
          Nat.add_le_add_left (Nat.mul_le_mul_left d h1) last
      · exact hdata
      · simp only [hdata, if_true]
    · rw [Bool.not_eq_true] at hdata
      rw [hdata]
      exact Or.inl rfl
  · rw [if_neg hb]
    exact Or.inl rfl

theorem schedulerRun_ends (d : ℕ) (hd : 0 < d) :
    ∀ (ticks : List (ℕ × (ℕ → ℕ → Bool))) (last : ℕ),
      ((schedulerRun d ticks last).2.map Prod.snd).Sorted (· < ·) ∧
      ∀ e ∈ (schedulerRun d ticks last).2.map Prod.snd, last < e := by
  intro ticks
  induction ticks with
  | nil => intro last; refine ⟨?_, ?_⟩ <;> simp [schedulerRun]
  | cons t rest ih =>
    intro last
    obtain ⟨now, h⟩ := t
    rcases schedulerTick_cases d hd h now last with htick | ⟨b, hlt, _, htick⟩
    · unfold schedulerRun
      rw [htick]
      dsimp only
      simpa using ih last
    · unfold schedulerRun
      rw [htick]
      dsimp only
      obtain ⟨ihs, ihb⟩ := ih b
      refine ⟨?_, ?_⟩
      · simp only [Option.toList_some, List.map_cons, List.map_append,
          List.singleton_append, List.sorted_cons]
        exact ⟨fun e he => ihb e he, ihs⟩
      · intro e he
        simp only [Option.toList_some, List.map_cons, List.map_append,
          List.singleton_append, List.mem_cons] at he
        rcases he with he | he
        · exact he ▸ hlt
        · exact Nat.lt_trans hlt (ihb e he)

/-- C2: per monitor, every cadence window is evaluated at most once along
any sequence of scheduler ticks — the evaluated window ends are distinct —
because `last_evaluated_window_end` advances exactly when a window is
evaluated with data (a non-inconclusive evaluation): a tick that evaluates
nothing (no boundary crossed, or "no data" from the Metric Computer)
leaves the pointer unchanged, so the window can be retried later; and an
Hourly monitor created at 10:00 (pointer 600 min), ticked at 10:05 with no
predictions and at 11:10 with data, evaluates exactly the window
[10:00, 11:00) once and ends with the pointer at 11:00 (660 min). -/
theorem C2_scheduler_at_most_once :
    (∀ (d : ℕ) (hasData : ℕ → ℕ → Bool) (now last : ℕ),
      (schedulerTick d hasData now last).2 = none →
      (schedulerTick d hasData now last).1 = last) ∧
    (∀ (d : ℕ) (hasData : ℕ → ℕ → Bool) (now last : ℕ), 0 < d →
      (schedulerTick d hasData now last).1 ≠ last →
      ∃ b, last < b ∧ hasData (b - d) b = true ∧
        (schedulerTick d hasData now last).2 = some (b - d, b) ∧
        (schedulerTick d hasData now last).1 = b) ∧
    (∀ (d : ℕ) (ticks : List (ℕ × (ℕ → ℕ → Bool))) (last : ℕ), 0 < d →
      ((schedulerRun d ticks last).2.map Prod.snd).Nodup) ∧
    schedulerTick 60 (fun _ _ => false) 605 600 = (600, none) ∧
    schedulerRun 60 [(605, fun _ _ => false), (670, fun _ _ => true)] 600 =
      (660, [(600, 660)]) := by
  refine ⟨?_, ?_, ?_, by rfl, by rfl⟩
  · intro d hasData now last hnone
    unfold schedulerTick at hnone ⊢
    dsimp only at hnone ⊢
    by_cases hb : last + d ≤ now
    · rw [if_pos hb] at hnone ⊢
      by_cases hdata : hasData (last + d * ((now - last) / d) - d)
          (last + d * ((now - last) / d)) = true
      · rw [if_pos hdata] at hnone
        cases hnone
      · rw [Bool.not_eq_true] at hdata
        rw [hdata]
        rfl
    · rw [if_neg hb] at hnone ⊢
  · intro d hasData now last hd hne
    rcases schedulerTick_cases d hd hasData now last with htick |
        ⟨b, hlt, hdata, htick⟩
    · exact absurd (congrArg Prod.fst htick) hne
    · exact ⟨b, hlt, hdata, congrArg Prod.snd htick,
        congrArg Prod.fst htick⟩
  · intro d ticks last hd
    exact ((schedulerRun_ends d hd ticks last).1).nodup

/-- Witness for C2 at the spec's Hourly example. -/
theorem C2_scheduler_at_most_once_witness :
    (schedulerTick 60 (fun _ _ => false) 605 600).1 = 600 ∧
    ((schedulerRun 60 [(605, fun _ _ => false), (670, fun _ _ => true)]
      600).2.map Prod.snd).Nodup :=
  ⟨C2_scheduler_at_most_once.1 60 (fun _ _ => false) 605 600 rfl,
    C2_scheduler_at_most_once.2.2.1 60
      [(605, fun _ _ => false), (670, fun _ _ => true)] 600
      (Nat.succ_pos 59)⟩

/-! ## The production predictions page's pagination

Translation of the query-parameter handling and the pagination match of
`get` in
`src/app/pages/repos/_/models/_/production_predictions/index/server/get.rs`
(lines 27-34 and 57-132). -/

/-- A search parameter's raw value: the value under the key in the
request's query map, when the map is present (get.rs lines 27-34,
`search_params.as_ref().and_then(|s| s.get(key))`). -/
def searchParamValue (search_params : Option (List (String × String)))
    (key : String) : Option String :=
  search_params.bind fun ps => (ps.find? fun p => p.1 == key).map Prod.snd

/-- A nonempty all-digit character list read as a natural number;
anything else fails. -/
def parseDigits : List Char → Option ℕ
| [] => none
| cs =>
  if cs.all Char.isDigit then
    some (cs.foldl (fun acc c => 10 * acc + (c.toNat - 48)) 0)
  else none

/-- `str::parse::<i64>().ok()` as the handler uses it: an optional sign
followed by at least one digit (the i64 overflow bound plays no role for
the claims and is not modelled). -/
def parseInt (s : String) : Option Int :=
  match s.data with
  | Char.ofNat 45 :: rest => (parseDigits rest).map fun n => -(n : Int)
  | Char.ofNat 43 :: rest => (parseDigits rest).map fun n => (n : Int)
  | l => (parseDigits l).map fun n => (n : Int)

/-- A search parameter parsed as an integer timestamp; an absent or
unparseable value yields `none` (`.and_then(|t| t.parse().ok())`). -/
def parsedParam (search_params : Option (List (String × String)))
    (key : String) : Option Int :=
  (searchParamValue search_params key).bind parseInt

/-- The three shapes of prediction query the handler can issue. -/
inductive PredictionsQuery
| afterQuery (after : Int)
| beforeQuery (before : Int)
| latest
deriving DecidableEq, Repr

/-- The pagination match of `get` (get.rs lines 57-132) on the parsed
`after`/`before` parameters; `none` marks the `unreachable!()` arm, which
panics instead of producing a response. -/
def paginationMatch (after before : Option Int) : Option PredictionsQuery :=
  match after, before with
  | some a, none => some (PredictionsQuery.afterQuery a)
  | none, some b => some (PredictionsQuery.beforeQuery b)
  | none, none => some PredictionsQuery.latest
  | _, _ => none

/-- The handler's pagination outcome as a function of the request's query
map. -/
def productionPredictionsPagination
    (search_params : Option (List (String × String))) :
    Option PredictionsQuery :=
  paginationMatch (parsedParam search_params "after")
    (parsedParam search_params "before")

/-- C8: a GET request to the production predictions page whose query
string carries both a parseable "after" and a parseable "before"
parameter drives the pagination match into its `unreachable!()` arm
(modelled as `none`), so the handler panics instead of producing a
response; for every request in which at most one of the two parses, the
match is total and a query shape is produced. -/
theorem C8_pagination_panic :
    productionPredictionsPagination
      (some [("after", "1"), ("before", "2")]) = none ∧
    (∀ search_params : Option (List (String × String)),
      (parsedParam search_params "after").isNone ∨
        (parsedParam search_params "before").isNone →
      (productionPredictionsPagination search_params).isSome) := by
  refine ⟨by decide, ?_⟩
  intro sp h
  unfold productionPredictionsPagination paginationMatch
  rcases h with h | h <;> rw [Option.isNone_iff_eq_none] at h <;> rw [h]
  · cases parsedParam sp "before" <;> rfl
  · cases parsedParam sp "after" <;> rfl

/-- Witness for C8 on a query with only "before". -/
theorem C8_pagination_panic_witness :
    (productionPredictionsPagination (some [("before", "7")])).isSome :=
  C8_pagination_panic.2 (some [("before", "7")]) (Or.inl rfl)

/-! ## The regressor baseline-RMSE warning on the two pages

Translation of the warning computations of
`src/app/pages/repos/_/models/_/index/server/get.rs` (lines 53-57) and of
`build_inner_regressor` in
`src/app/pages/repos/_/models/_/training_metrics/index/server/get.rs`
(lines 67-71). The RMSE values are `f32` in the source; only a single
order comparison is involved, modelled over rationals. -/

/-- The model overview page's regressor warning: shown when
`baseline_metrics().rmse() < test_metrics().rmse()`. -/
def overviewRegressorWarning (baseline_rmse rmse : ℚ) : Option String :=
  if baseline_rmse < rmse then
    some "Baseline RMSE is lower! Your model performs worse than if it were just guessing the mean of the target column."
  else none

/-- The training-metrics page's regressor warning
(`build_inner_regressor`): shown when
`baseline_metrics().rmse() > test_metrics().rmse()`. -/
def trainingMetricsRegressorWarning (baseline_rmse rmse : ℚ) :
    Option String :=
  if baseline_rmse > rmse then
    some "Baseline RMSE is lower! Your model performs worse than if it were just guessing the mean of the target column."
  else none

/-- C9: the two pages disagree — their comparisons are opposite. At
baseline RMSE 2 and test RMSE 1 the overview page shows no warning while
the training-metrics page shows the warning (even though its own message
text says the baseline RMSE is lower, while it is higher); at baseline 1
and test 2 the roles are swapped; so the claimed equivalence fails. -/
theorem C9_warning_disagreement :
    overviewRegressorWarning 2 1 = none ∧
    trainingMetricsRegressorWarning 2 1 =
      some "Baseline RMSE is lower! Your model performs worse than if it were just guessing the mean of the target column." ∧
    overviewRegressorWarning 1 2 =
      some "Baseline RMSE is lower! Your model performs worse than if it were just guessing the mean of the target column." ∧
    trainingMetricsRegressorWarning 1 2 = none ∧
    ¬ (∀ baseline_rmse rmse : ℚ,
        overviewRegressorWarning baseline_rmse rmse =
          trainingMetricsRegressorWarning baseline_rmse rmse) := by
  refine ⟨?_, ?_, ?_, ?_, ?_⟩
  · unfold overviewRegressorWarning
    rw [if_neg (by norm_num)]
  · unfold trainingMetricsRegressorWarning
    rw [if_pos (by norm_num)]
  · unfold overviewRegressorWarning
    rw [if_pos (by norm_num)]
  · unfold trainingMetricsRegressorWarning
    rw [if_neg (by norm_num)]
  · intro hall
    have h := hall 2 1
    unfold overviewRegressorWarning trainingMetricsRegressorWarning at h
    rw [if_neg (by norm_num), if_pos (by norm_num)] at h
    cases h

/-! ## The monitors index route -/

/-- HTTP request methods. -/
inductive HttpMethod
| get
| head
| post
| put
| deleteMethod
| connect
| options
| trace
| patch
deriving DecidableEq, Repr

/-- The two ways the monitors index route answers a request. -/
inductive RouteResult
| page
| methodNotAllowed
deriving DecidableEq, Repr

/-- The dispatch of `init` in
`src/crates/app/routes/repos/_/models/_/monitors/index/server/lib.rs`
(lines 7-12): a GET request goes to the page handler, every other method
gets `method_not_allowed`. -/
def monitorsIndexRoute : HttpMethod → RouteResult
| HttpMethod.get => RouteResult.page
| _ => RouteResult.methodNotAllowed

/-- C10: every non-GET request to the monitors index route receives the
method-not-allowed response, and every GET request is dispatched to the
page handler. -/
theorem C10_monitors_index_route (m : HttpMethod) :
    (m = HttpMethod.get → monitorsIndexRoute m = RouteResult.page) ∧
    (m ≠ HttpMethod.get →
      monitorsIndexRoute m = RouteResult.methodNotAllowed) := by
  constructor
  · intro h
    subst h
    rfl
  · intro h
    cases m
    · exact absurd rfl h
    all_goals rfl

/-- Witness for C10 at GET and POST. -/
theorem C10_monitors_index_route_witness :
    monitorsIndexRoute HttpMethod.get = RouteResult.page ∧
    monitorsIndexRoute HttpMethod.post = RouteResult.methodNotAllowed :=
  ⟨(C10_monitors_index_route HttpMethod.get).1 rfl,
    (C10_monitors_index_route HttpMethod.post).2 (by decide)⟩

end Modelfox
